import Mathlib

/-!
Shallow embedding of the Tourley persistence layer (`src/database.py`) and
its entity types (`src/user.py`, `src/trip.py`).

The SQLite store is modelled as an explicit `DB` state: a list of user rows
and a list of trip rows kept in insertion (rowid) order, together with the
AUTOINCREMENT counters for the two tables and a logical clock standing for
the `created_at` timestamps (`TIMESTAMP DEFAULT CURRENT_TIMESTAMP`); every
insert stamps the current clock value and advances it, so later inserts
carry strictly larger timestamps.

A modelling point that matters for the cascade claims: `database.py` opens
its connections with `sqlite3.connect` and never issues
`PRAGMA foreign_keys = ON`.  SQLite leaves foreign-key enforcement OFF by
default, so the `FOREIGN KEY (user_id) REFERENCES users (id) ON DELETE
CASCADE` clause declared in `init_database` is parsed but not enforced:
`DELETE FROM users WHERE id = ?` removes only the user row and leaves the
user's trip rows in place.  `delete_user` below models that actual
behaviour.
-/

namespace Tourley

/-- A row of the `users` table: `id` (AUTOINCREMENT primary key), `name`,
`email` (UNIQUE), `password`, `created_at` (logical timestamp). -/
structure UserRow where
  id : Nat
  name : String
  email : String
  password : String
  created_at : Nat
  deriving Repr, DecidableEq

/-- A row of the `trips` table: `id` (AUTOINCREMENT primary key), `user_id`
(declared foreign key to `users.id`), the six descriptive fields, and
`created_at` (logical timestamp). -/
structure TripRow where
  id : Nat
  user_id : Nat
  city : String
  state : String
  country : String
  start_date : String
  end_date : String
  type : String
  created_at : Nat
  deriving Repr, DecidableEq

/-- The whole store: the two tables in rowid (insertion) order, the next
AUTOINCREMENT id for each table, and the logical clock used to stamp
`created_at` on inserts. -/
structure DB where
  users : List UserRow
  trips : List TripRow
  nextUserId : Nat
  nextTripId : Nat
  clock : Nat
  deriving Repr, DecidableEq

/-- A freshly initialised database (`init_database` creates the two empty
tables; SQLite rowids start at 1). -/
def emptyDB : DB := ⟨[], [], 1, 1, 0⟩

/-- The in-memory `Trip` object of `trip.py`: `__init__` sets exactly
`id = None`, `city`, `state`, `country`, `start_date`, `end_date`, `type`
(each defaulting to `None`, hence `Option`).  There is no `user_id`
attribute. -/
structure TripObj where
  id : Option Nat
  city : Option String
  state : Option String
  country : Option String
  start_date : Option String
  end_date : Option String
  type : Option String
  deriving Repr, DecidableEq

/-- Embedding of `Trip.get_duration` from `trip.py`: the placeholder implementation
returns `0` regardless of the trip's dates. -/
def TripObj.get_duration (_ : TripObj) : Nat := 0

/-- The in-memory `User` object of `user.py`: `__init__` sets exactly
`name`, `email`, `password` (each defaulting to `None`) and a fresh empty
`trips` list.  There is no `id` attribute. -/
structure UserObj where
  name : Option String
  email : Option String
  password : Option String
  trips : List TripObj
  deriving Repr, DecidableEq

/-- The fault raised by SQLite on a UNIQUE-constraint violation
(`sqlite3.IntegrityError`). -/
inductive DbError where
  | integrityError
  deriving Repr, DecidableEq

/-- Python truthiness of an optional string argument, as used by the
`if name:` guards in `update_user` / `update_trip`: `None` and the empty
string are falsy, any non-empty string is truthy. -/
def truthy : Option String → Bool
  | none => false
  | some s => !(s == "")

/-- Effect of one optional argument on one stored column under the
partial-update pattern: the column is overwritten only when the argument
is truthy, otherwise it keeps its old value. -/
def applyField (v : Option String) (old : String) : String :=
  match v with
  | none => old
  | some s => if s == "" then old else s

/-- Embedding of `DatabaseManager.create_user`: `INSERT INTO users (name, email,
password) VALUES (?, ?, ?)`; on a duplicate email the UNIQUE constraint
raises `sqlite3.IntegrityError`, which the method catches and turns into
`None` with nothing committed; otherwise it returns `cursor.lastrowid`. -/
def create_user (db : DB) (name email password : String) : Option Nat × DB :=
  if db.users.any (fun u => u.email == email) then
    (none, db)
  else
    (some db.nextUserId,
      { db with
          users := db.users ++ [⟨db.nextUserId, name, email, password, db.clock⟩],
          nextUserId := db.nextUserId + 1,
          clock := db.clock + 1 })

/-- Embedding of `DatabaseManager.get_user_by_email`: `SELECT * FROM users WHERE email
= ?`, `fetchone`, then either `None` or a `User(name=..., email=...,
password=...)` built from the row (the row's `id` is not copied onto the
object, and the object's `trips` list starts empty). -/
def get_user_by_email (db : DB) (email : String) : Option UserObj :=
  (db.users.find? (fun u => u.email == email)).map
    (fun row => ⟨some row.name, some row.email, some row.password, []⟩)

/-- Embedding of `DatabaseManager.get_user_by_id`: same row-to-object mapping as
`get_user_by_email`, keyed on `id`. -/
def get_user_by_id (db : DB) (user_id : Nat) : Option UserObj :=
  (db.users.find? (fun u => u.id == user_id)).map
    (fun row => ⟨some row.name, some row.email, some row.password, []⟩)

/-- Embedding of `DatabaseManager.update_user`: builds `UPDATE users SET ... WHERE id =
?` from the truthy arguments only; with no truthy argument no statement
runs.  If the statement would give the target row an email already held by
a different row, SQLite raises `sqlite3.IntegrityError` (uncaught here)
and the statement changes nothing; a failed or row-less update leaves the
store as it was.  The result pairs the resulting store with the fault, if
any. -/
def update_user (db : DB) (user_id : Nat) (name email password : Option String) :
    DB × Option DbError :=
  if truthy name || truthy email || truthy password then
    if truthy email && db.users.any (fun u => u.id == user_id) &&
        db.users.any (fun v => !(v.id == user_id) && v.email == email.getD "") then
      (db, some DbError.integrityError)
    else
      ({ db with
          users := db.users.map (fun u =>
            if u.id == user_id then
              { u with
                  name := applyField name u.name,
                  email := applyField email u.email,
                  password := applyField password u.password }
            else u) }, none)
  else
    (db, none)

/-- Embedding of `DatabaseManager.delete_user`: `DELETE FROM users WHERE id = ?`.
Because the connection never enables `PRAGMA foreign_keys`, the declared
`ON DELETE CASCADE` is not enforced by SQLite: only the user row is
removed and the user's trip rows stay behind. -/
def delete_user (db : DB) (user_id : Nat) : DB :=
  { db with users := db.users.filter (fun u => !(u.id == user_id)) }

/-- Embedding of `DatabaseManager.create_trip`: `INSERT INTO trips (user_id, city,
state, country, start_date, end_date, type) VALUES (?, ...)` and return
`cursor.lastrowid`.  With foreign-key enforcement off (see `delete_user`)
the insert succeeds whether or not `user_id` names an existing user. -/
def create_trip (db : DB) (user_id : Nat)
    (city state country start_date end_date trip_type : String) : Nat × DB :=
  (db.nextTripId,
    { db with
        trips := db.trips ++
          [⟨db.nextTripId, user_id, city, state, country, start_date, end_date,
            trip_type, db.clock⟩],
        nextTripId := db.nextTripId + 1,
        clock := db.clock + 1 })

/-- Row-to-object mapping used by `get_user_trips` and `get_trip_by_id`:
the `Trip` object is built from the six descriptive columns and then its
`id` attribute is set from the row; the row's `user_id` is not copied onto
the object. -/
def tripRowToObj (row : TripRow) : TripObj :=
  ⟨some row.id, some row.city, some row.state, some row.country,
    some row.start_date, some row.end_date, some row.type⟩

/-- Insert a trip row into a list sorted by descending `created_at`,
keeping the descending order (helper realising `ORDER BY created_at
DESC`). -/
def insertByDesc (x : TripRow) : List TripRow → List TripRow
  | [] => [x]
  | h :: rest =>
      if h.created_at ≤ x.created_at then x :: h :: rest
      else h :: insertByDesc x rest

/-- Sort a list of trip rows by descending `created_at` (realising
`ORDER BY created_at DESC`). -/
def sortByCreatedDesc : List TripRow → List TripRow
  | [] => []
  | h :: rest => insertByDesc h (sortByCreatedDesc rest)

/-- Embedding of `DatabaseManager.get_user_trips`: `SELECT * FROM trips WHERE user_id =
? ORDER BY created_at DESC`, each row mapped to a `Trip` object. -/
def get_user_trips (db : DB) (user_id : Nat) : List TripObj :=
  (sortByCreatedDesc (db.trips.filter (fun t => t.user_id == user_id))).map
    tripRowToObj

/-- Embedding of `DatabaseManager.get_trip_by_id`: `SELECT * FROM trips WHERE id = ?`,
`fetchone`, then `None` or the row mapped to a `Trip` object. -/
def get_trip_by_id (db : DB) (trip_id : Nat) : Option TripObj :=
  (db.trips.find? (fun t => t.id == trip_id)).map tripRowToObj

/-- Embedding of `DatabaseManager.update_trip`: same partial-update pattern as
`update_user` over the six descriptive columns; the `trips` table has no
UNIQUE column, so no integrity fault can arise. -/
def update_trip (db : DB) (trip_id : Nat)
    (city state country start_date end_date trip_type : Option String) : DB :=
  if truthy city || truthy state || truthy country || truthy start_date ||
      truthy end_date || truthy trip_type then
    { db with
        trips := db.trips.map (fun t =>
          if t.id == trip_id then
            { t with
                city := applyField city t.city,
                state := applyField state t.state,
                country := applyField country t.country,
                start_date := applyField start_date t.start_date,
                end_date := applyField end_date t.end_date,
                type := applyField trip_type t.type }
          else t) }
  else
    db

/-- Embedding of `DatabaseManager.delete_trip`: `DELETE FROM trips WHERE id = ?`. -/
def delete_trip (db : DB) (trip_id : Nat) : DB :=
  { db with trips := db.trips.filter (fun t => !(t.id == trip_id)) }

/-- Embedding of `DatabaseManager.get_user_id_by_email`: `SELECT id FROM users WHERE
email = ?`, returning the id or `None`. -/
def get_user_id_by_email (db : DB) (email : String) : Option Nat :=
  (db.users.find? (fun u => u.email == email)).map (fun row => row.id)

/-- Referential integrity of the store: every trip row's `user_id` names
an existing user row. -/
def noOrphanTrips (db : DB) : Prop :=
  ∀ t ∈ db.trips, ∃ u ∈ db.users, u.id = t.user_id

instance : DecidablePred noOrphanTrips := fun db => by
  unfold noOrphanTrips; infer_instance

/-! Concrete stores used by witnesses and counterexamples. -/

/-- A store holding one user, created through the operations:
`create_user("Alice", "alice@example.com", "pw1")` on a fresh store. -/
def dbOneUser : DB := (create_user emptyDB "Alice" "alice@example.com" "pw1").2

/-- A store holding two users with distinct emails, created through the
operations: `dbOneUser` then `create_user("Bob", "bob@example.com",
"pw2")`. -/
def dbTwoUsers : DB := (create_user dbOneUser "Bob" "bob@example.com" "pw2").2

/-- The cascade scenario: a fresh store, one user (id 1), one trip owned
by that user, then `delete_user(1)`. -/
def dbCascadeScenario : DB :=
  delete_user
    (create_trip (create_user emptyDB "Will Cox" "will@gmail.com" "password").2
      1 "Dallas" "Texas" "USA" "2024-06-01" "2024-06-07" "business").2
    1

/-! Helper lemmas. -/

/-- A non-truthy argument never changes the stored column. -/
theorem applyField_of_not_truthy (v : Option String) (old : String)
    (h : truthy v = false) : applyField v old = old := by
  cases v with
  | none => rfl
  | some s =>
      simp only [truthy, Bool.not_eq_false'] at h
      simp [applyField, h]

/-- C1: when some user row already holds the requested email,
`create_user` returns the `None` sentinel (the caught
`sqlite3.IntegrityError` is not re-raised) and the store is unchanged; in
particular, if exactly one row held that email before the call, exactly
one holds it afterwards. -/
theorem C1_duplicate_email_rejected (db : DB) (name email password : String)
    (h : db.users.any (fun u => u.email == email) = true) :
    create_user db name email password = (none, db) ∧
      (db.users.countP (fun u => u.email == email) = 1 →
        ((create_user db name email password).2.users.countP
          (fun u => u.email == email)) = 1) := by
  constructor
  · simp [create_user, h]
  · intro h1
    simp [create_user, h, h1]

/-- Witness for C1 on a concrete store: creating "Bob" with Alice's email
is rejected and Alice's row stays the only one with that email. -/
theorem C1_duplicate_email_rejected_witness :
    create_user dbOneUser "Bob" "alice@example.com" "pw2" = (none, dbOneUser) ∧
      ((create_user dbOneUser "Bob" "alice@example.com" "pw2").2.users.countP
        (fun u => u.email == "alice@example.com")) = 1 := by
  have h := C1_duplicate_email_rejected dbOneUser "Bob" "alice@example.com" "pw2"
    (by decide)
  exact ⟨h.1, h.2 (by decide)⟩

/-- C6: each of the four lookups returns the `None` sentinel, rather than
raising, when no row matches the requested email or identifier. -/
theorem C6_absence_sentinels (db : DB) (email : String) (user_id trip_id : Nat) :
    ((∀ u ∈ db.users, u.email ≠ email) → get_user_by_email db email = none) ∧
    ((∀ u ∈ db.users, u.id ≠ user_id) → get_user_by_id db user_id = none) ∧
    ((∀ t ∈ db.trips, t.id ≠ trip_id) → get_trip_by_id db trip_id = none) ∧
    ((∀ u ∈ db.users, u.email ≠ email) → get_user_id_by_email db email = none) := by
  refine ⟨fun h => ?_, fun h => ?_, fun h => ?_, fun h => ?_⟩
  · simp only [get_user_by_email, Option.map_eq_none', List.find?_eq_none]
    intro u hu
    simpa using h u hu
  · simp only [get_user_by_id, Option.map_eq_none', List.find?_eq_none]
    intro u hu
    simpa using h u hu
  · simp only [get_trip_by_id, Option.map_eq_none', List.find?_eq_none]
    intro t ht
    simpa using h t ht
  · simp only [get_user_id_by_email, Option.map_eq_none', List.find?_eq_none]
    intro u hu
    simpa using h u hu

/-- Witness for C6 on a concrete store with two users and no trips: all
four lookups return `none` for an absent email / identifier. -/
theorem C6_absence_sentinels_witness :
    get_user_by_email dbTwoUsers "nobody@example.com" = none ∧
    get_user_by_id dbTwoUsers 99 = none ∧
    get_trip_by_id dbTwoUsers 99 = none ∧
    get_user_id_by_email dbTwoUsers "nobody@example.com" = none := by
  have h := C6_absence_sentinels dbTwoUsers "nobody@example.com" 99 99
  exact ⟨h.1 (by decide), h.2.1 (by decide), h.2.2.1 (by decide),
    h.2.2.2 (by decide)⟩

/-- C8: the duration accessor of the `Trip` object returns `0` for every
trip, whatever its dates. -/
theorem C8_duration_always_zero (t : TripObj) : t.get_duration = 0 := rfl

/-- C2 evaluated at its failing input: after creating a user, giving it a
trip, and calling `delete_user`, the user row is gone but the trip row
with `user_id = 1` is still in the store — the claimed cascade does not
happen, because the code never enables SQLite foreign-key enforcement. -/
theorem C2_delete_user_leaves_trips :
    dbCascadeScenario.users = [] ∧
      dbCascadeScenario.trips.countP (fun t => t.user_id == 1) = 1 := by
  decide

/-- C7 evaluated at its failing input: the state reached by create_user,
create_trip (with an existing owner), delete_user contains an orphan trip,
violating the claimed referential-integrity invariant. -/
theorem C7_orphan_trip_reachable : ¬ noOrphanTrips dbCascadeScenario := by
  decide

/-- C9: with two stored users holding distinct emails, updating the
second user's email to the first user's email hits the UNIQUE constraint:
`update_user` (which, unlike `create_user`, has no `except` around its
statement) surfaces the `sqlite3.IntegrityError` and the store — in
particular the second user's row — is unchanged. -/
theorem C9_update_user_duplicate_email_raises (db : DB) (u1 u2 : UserRow)
    (e1 : String) (h1 : u1 ∈ db.users) (h2 : u2 ∈ db.users)
    (hne : u1.id ≠ u2.id) (he1 : u1.email = e1) (_he2 : u2.email ≠ e1)
    (hnonempty : e1 ≠ "") :
    update_user db u2.id none (some e1) none = (db, some DbError.integrityError) := by
  have ht : truthy (some e1) = true := by
    simp [truthy, hnonempty]
  have ha1 : db.users.any (fun u => u.id == u2.id) = true :=
    List.any_eq_true.mpr ⟨u2, h2, by simp⟩
  have ha2 : db.users.any
      (fun v => !(v.id == u2.id) && v.email == (some e1).getD "") = true :=
    List.any_eq_true.mpr ⟨u1, h1, by simp [hne, he1]⟩
  have hb1 : (truthy none || truthy (some e1) || truthy none) = true := by
    simp [ht]
  have hb2 : (truthy (some e1) && db.users.any (fun u => u.id == u2.id) &&
      db.users.any (fun v => !(v.id == u2.id) && v.email == (some e1).getD ""))
      = true := by
    rw [ht, ha1, ha2]
    rfl
  unfold update_user
  rw [hb1, hb2]
  simp

/-- Witness for C9 on a concrete store: setting Bob's email to Alice's
email raises the integrity fault and leaves the store unchanged. -/
theorem C9_update_user_duplicate_email_raises_witness :
    update_user dbTwoUsers 2 none (some "alice@example.com") none =
      (dbTwoUsers, some DbError.integrityError) :=
  C9_update_user_duplicate_email_raises dbTwoUsers
    ⟨1, "Alice", "alice@example.com", "pw1", 0⟩
    ⟨2, "Bob", "bob@example.com", "pw2", 1⟩
    "alice@example.com" (by decide) (by decide) (by decide) (by decide)
    (by decide) (by decide)

/-- C10: the `User` objects built by `get_user_by_email` / `get_user_by_id`
carry exactly the row's `name`, `email` and `password` and a fresh empty
`trips` list — the embedded `UserObj`, mirroring `User.__init__`, has no
identifier attribute at all — while `get_user_id_by_email` is the lookup
that returns the stored surrogate identifier. -/
theorem C10_user_objects_carry_no_id (db : DB) (u : UserRow) (email : String)
    (user_id : Nat) :
    (db.users.find? (fun x => x.email == email) = some u →
      get_user_by_email db email =
        some ⟨some u.name, some u.email, some u.password, []⟩) ∧
    (db.users.find? (fun x => x.id == user_id) = some u →
      get_user_by_id db user_id =
        some ⟨some u.name, some u.email, some u.password, []⟩) ∧
    (db.users.find? (fun x => x.email == email) = some u →
      get_user_id_by_email db email = some u.id) := by
  refine ⟨fun h => ?_, fun h => ?_, fun h => ?_⟩
  · simp [get_user_by_email, h]
  · simp [get_user_by_id, h]
  · simp [get_user_id_by_email, h]

/-- Witness for C10 on a concrete store: Alice's record comes back as
name/email/password with an empty trips list, and her id is obtained via
`get_user_id_by_email`. -/
theorem C10_user_objects_carry_no_id_witness :
    get_user_by_email dbTwoUsers "alice@example.com" =
      some ⟨some "Alice", some "alice@example.com", some "pw1", []⟩ ∧
    get_user_by_id dbTwoUsers 1 =
      some ⟨some "Alice", some "alice@example.com", some "pw1", []⟩ ∧
    get_user_id_by_email dbTwoUsers "alice@example.com" = some 1 := by
  have h := C10_user_objects_carry_no_id dbTwoUsers
    ⟨1, "Alice", "alice@example.com", "pw1", 0⟩ "alice@example.com" 1
  exact ⟨h.1 (by decide), h.2.1 (by decide), h.2.2 (by decide)⟩

/-- C3: under `update_user` and `update_trip`, a stored field changes only
when the corresponding argument is truthy — an absent (`none`) or
empty-string argument leaves that field as it was (every resulting row
stems from an original row with the same key, timestamp and, for each
non-truthy argument, the same field) — the other table is untouched, and a
call in which no argument is truthy returns the store completely
unchanged. -/
theorem C3_partial_update_truthy_only (db : DB) (user_id : Nat)
    (name email password : Option String) :
    (∀ u' ∈ (update_user db user_id name email password).1.users,
      ∃ u ∈ db.users, u'.id = u.id ∧ u'.created_at = u.created_at ∧
        (truthy name = false → u'.name = u.name) ∧
        (truthy email = false → u'.email = u.email) ∧
        (truthy password = false → u'.password = u.password)) ∧
    (update_user db user_id name email password).1.trips = db.trips ∧
    (truthy name = false → truthy email = false → truthy password = false →
      update_user db user_id name email password = (db, none)) ∧
    ∀ (trip_id : Nat) (city state country start_date end_date trip_type : Option String),
      (∀ t' ∈ (update_trip db trip_id city state country start_date end_date
          trip_type).trips,
        ∃ t ∈ db.trips, t'.id = t.id ∧ t'.user_id = t.user_id ∧
          t'.created_at = t.created_at ∧
          (truthy city = false → t'.city = t.city) ∧
          (truthy state = false → t'.state = t.state) ∧
          (truthy country = false → t'.country = t.country) ∧
          (truthy start_date = false → t'.start_date = t.start_date) ∧
          (truthy end_date = false → t'.end_date = t.end_date) ∧
          (truthy trip_type = false → t'.type = t.type)) ∧
      (update_trip db trip_id city state country start_date end_date
        trip_type).users = db.users ∧
      (truthy city = false → truthy state = false → truthy country = false →
        truthy start_date = false → truthy end_date = false →
        truthy trip_type = false →
        update_trip db trip_id city state country start_date end_date trip_type
          = db) := by
  refine ⟨?_, ?_, ?_, ?_⟩
  · intro u' hu'
    by_cases hc : (truthy name || truthy email || truthy password) = true
    · by_cases hdup : (truthy email && db.users.any (fun u => u.id == user_id) &&
          db.users.any (fun v => !(v.id == user_id) && v.email == email.getD ""))
          = true
      · simp [update_user, hc, hdup] at hu'
        exact ⟨u', hu', rfl, rfl, fun _ => rfl, fun _ => rfl, fun _ => rfl⟩
      · simp [update_user, hc, hdup] at hu'
        obtain ⟨u, hu, rfl⟩ := hu'
        refine ⟨u, hu, ?_⟩
        by_cases hid : u.id = user_id
        · refine ⟨?_, ?_, ?_, ?_, ?_⟩ <;> simp [hid] <;> intro h <;>
            exact applyField_of_not_truthy _ _ h
        · refine ⟨?_, ?_, ?_, ?_, ?_⟩ <;> simp [hid]
    · simp [update_user, hc] at hu'
      exact ⟨u', hu', rfl, rfl, fun _ => rfl, fun _ => rfl, fun _ => rfl⟩
  · by_cases hc : (truthy name || truthy email || truthy password) = true
    · by_cases hdup : (truthy email && db.users.any (fun u => u.id == user_id) &&
          db.users.any (fun v => !(v.id == user_id) && v.email == email.getD ""))
          = true
      · simp [update_user, hc, hdup]
      · simp [update_user, hc, hdup]
    · simp [update_user, hc]
  · intro hn he hp
    simp [update_user, hn, he, hp]
  · intro trip_id city state country start_date end_date trip_type
    refine ⟨?_, ?_, ?_⟩
    · intro t' ht'
      by_cases hc : (truthy city || truthy state || truthy country ||
          truthy start_date || truthy end_date || truthy trip_type) = true
      · simp [update_trip, hc] at ht'
        obtain ⟨t, ht, rfl⟩ := ht'
        refine ⟨t, ht, ?_⟩
        by_cases hid : t.id = trip_id
        · refine ⟨?_, ?_, ?_, ?_, ?_, ?_, ?_, ?_, ?_⟩ <;> simp [hid] <;>
            intro h <;> exact applyField_of_not_truthy _ _ h
        · refine ⟨?_, ?_, ?_, ?_, ?_, ?_, ?_, ?_, ?_⟩ <;> simp [hid]
      · simp [update_trip, hc] at ht'
        exact ⟨t', ht', rfl, rfl, rfl, fun _ => rfl, fun _ => rfl, fun _ => rfl,
          fun _ => rfl, fun _ => rfl, fun _ => rfl⟩
    · by_cases hc : (truthy city || truthy state || truthy country ||
          truthy start_date || truthy end_date || truthy trip_type) = true
      · simp [update_trip, hc]
      · simp [update_trip, hc]
    · intro h1 h2 h3 h4 h5 h6
      simp [update_trip, h1, h2, h3, h4, h5, h6]

/-- Witness for C3 on a concrete store: an update with only an
empty-string name (and an update_trip with only an empty-string city) is a
complete no-op. -/
theorem C3_partial_update_truthy_only_witness :
    update_user dbTwoUsers 1 (some "") none none = (dbTwoUsers, none) ∧
    update_trip dbTwoUsers 1 (some "") none none none none none = dbTwoUsers := by
  have h := C3_partial_update_truthy_only dbTwoUsers 1 (some "") none none
  exact ⟨h.2.2.1 (by decide) (by decide) (by decide),
    (h.2.2.2 1 (some "") none none none none none).2.2 (by decide) (by decide)
      (by decide) (by decide) (by decide) (by decide)⟩

/-- Sorting by descending `created_at` sends a strictly newest element,
appended last, to the head of the result. -/
theorem sortByCreatedDesc_append_newest (l : List TripRow) (x : TripRow)
    (h : ∀ y ∈ l, y.created_at < x.created_at) :
    sortByCreatedDesc (l ++ [x]) = x :: sortByCreatedDesc l := by
  induction l with
  | nil => rfl
  | cons a rest ih =>
      have ha : ¬ x.created_at ≤ a.created_at := by
        have := h a (List.mem_cons_self a rest)
        omega
      have hstep : sortByCreatedDesc ((a :: rest) ++ [x]) =
          insertByDesc a (sortByCreatedDesc (rest ++ [x])) := rfl
      have hstep2 : sortByCreatedDesc (a :: rest) =
          insertByDesc a (sortByCreatedDesc rest) := rfl
      rw [hstep, ih (fun y hy => h y (List.mem_cons_of_mem a hy)), hstep2]
      simp [insertByDesc, ha]

/-- Every trip row already in the store is stamped strictly earlier than
the store's clock, and `create_trip` preserves this. -/
theorem create_trip_clock_invariant (db : DB) (user_id : Nat)
    (f1 f2 f3 f4 f5 f6 : String)
    (hcl : ∀ t ∈ db.trips, t.created_at < db.clock) :
    ∀ t ∈ (create_trip db user_id f1 f2 f3 f4 f5 f6).2.trips,
      t.created_at < (create_trip db user_id f1 f2 f3 f4 f5 f6).2.clock := by
  intro t ht
  simp only [create_trip, List.mem_append, List.mem_singleton] at ht
  rcases ht with ht | rfl
  · have := hcl t ht
    simp only [create_trip]
    omega
  · simp [create_trip]

/-- Listing a user's trips right after `create_trip` for that user yields
the new trip's object at the head, in front of the previous listing. -/
theorem get_user_trips_after_create_trip (db : DB) (user_id : Nat)
    (f1 f2 f3 f4 f5 f6 : String)
    (hcl : ∀ t ∈ db.trips, t.created_at < db.clock) :
    get_user_trips (create_trip db user_id f1 f2 f3 f4 f5 f6).2 user_id =
      ⟨some db.nextTripId, some f1, some f2, some f3, some f4, some f5, some f6⟩ ::
        get_user_trips db user_id := by
  unfold get_user_trips create_trip
  simp only [List.filter_append]
  have hsingle : List.filter (fun t => t.user_id == user_id)
        [(⟨db.nextTripId, user_id, f1, f2, f3, f4, f5, f6, db.clock⟩ : TripRow)] =
      [(⟨db.nextTripId, user_id, f1, f2, f3, f4, f5, f6, db.clock⟩ : TripRow)] := by
    simp
  rw [hsingle]
  rw [sortByCreatedDesc_append_newest _ _
    (fun y hy => hcl y (List.mem_of_mem_filter hy))]
  simp [tripRowToObj]

/-- C4: trips are listed most-recently-created first — creating trips A,
then B, then C for the same user prepends them to the user's listing in
the order C, B, A (with the store-assigned identifiers `nextTripId`,
`nextTripId+1`, `nextTripId+2`) — and a user with no trips gets the empty
sequence.  The hypothesis is the store's timestamp invariant: every stored
trip was stamped before the current clock. -/
theorem C4_user_trips_newest_first (db : DB) (user_id : Nat)
    (a1 a2 a3 a4 a5 a6 b1 b2 b3 b4 b5 b6 c1 c2 c3 c4 c5 c6 : String)
    (hcl : ∀ t ∈ db.trips, t.created_at < db.clock) :
    (get_user_trips
        (create_trip
          (create_trip (create_trip db user_id a1 a2 a3 a4 a5 a6).2
            user_id b1 b2 b3 b4 b5 b6).2
          user_id c1 c2 c3 c4 c5 c6).2 user_id =
      ⟨some (db.nextTripId + 2), some c1, some c2, some c3, some c4, some c5,
        some c6⟩ ::
      ⟨some (db.nextTripId + 1), some b1, some b2, some b3, some b4, some b5,
        some b6⟩ ::
      ⟨some db.nextTripId, some a1, some a2, some a3, some a4, some a5,
        some a6⟩ ::
      get_user_trips db user_id) ∧
    ((∀ t ∈ db.trips, t.user_id ≠ user_id) → get_user_trips db user_id = []) := by
  constructor
  · have h1 := create_trip_clock_invariant db user_id a1 a2 a3 a4 a5 a6 hcl
    have h2 := create_trip_clock_invariant _ user_id b1 b2 b3 b4 b5 b6 h1
    rw [get_user_trips_after_create_trip _ _ _ _ _ _ _ _ h2,
      get_user_trips_after_create_trip _ _ _ _ _ _ _ _ h1,
      get_user_trips_after_create_trip _ _ _ _ _ _ _ _ hcl]
    simp [create_trip]
  · intro h
    have hf : db.trips.filter (fun t => t.user_id == user_id) = [] := by
      rw [List.filter_eq_nil_iff]
      intro t ht
      simpa using h t ht
    simp [get_user_trips, hf, sortByCreatedDesc]

/-- Witness for C4 on a fresh store: three trips created in order A, B, C
come back as C, B, A with ids 3, 2, 1, and the listing before any trip
exists is empty. -/
theorem C4_user_trips_newest_first_witness :
    get_user_trips
        (create_trip
          (create_trip (create_trip emptyDB 1 "a1" "a2" "a3" "a4" "a5" "a6").2
            1 "b1" "b2" "b3" "b4" "b5" "b6").2
          1 "c1" "c2" "c3" "c4" "c5" "c6").2 1 =
      [⟨some 3, some "c1", some "c2", some "c3", some "c4", some "c5", some "c6"⟩,
       ⟨some 2, some "b1", some "b2", some "b3", some "b4", some "b5", some "b6"⟩,
       ⟨some 1, some "a1", some "a2", some "a3", some "a4", some "a5", some "a6"⟩] ∧
    get_user_trips emptyDB 1 = [] := by
  have h := C4_user_trips_newest_first emptyDB 1 "a1" "a2" "a3" "a4" "a5" "a6"
    "b1" "b2" "b3" "b4" "b5" "b6" "c1" "c2" "c3" "c4" "c5" "c6" (by decide)
  have he : get_user_trips emptyDB 1 = [] := h.2 (by decide)
  constructor
  · rw [h.1, he]
    decide
  · exact he

/-- Searching an appended list when the first part has no match reduces to
searching the second part. -/
theorem find?_append_of_none {α : Type} (p : α → Bool) (l1 l2 : List α)
    (h : l1.find? p = none) : (l1 ++ l2).find? p = l2.find? p := by
  induction l1 with
  | nil => rfl
  | cons a rest ih =>
      rw [List.find?_cons] at h
      cases hp : p a with
      | true => rw [hp] at h; exact absurd h (by simp)
      | false =>
          rw [hp] at h
          have := ih h
          rw [List.cons_append, List.find?_cons, hp]
          exact this

/-- The trip object that `get_trip_by_id` yields after `create_trip` on
`dbTwoUsers` with owner `u` and the fixed Dallas fields.  Used to exhibit
that the yielded object does not depend on the owner. -/
def tripUnderOwner (u : Nat) : Option TripObj :=
  get_trip_by_id
    (create_trip dbTwoUsers u "Dallas" "Texas" "USA" "2024-06-01" "2024-06-07"
      "business").2
    (create_trip dbTwoUsers u "Dallas" "Texas" "USA" "2024-06-01" "2024-06-07"
      "business").1

/-- Counterexample to C5 as stated: running `create_trip` followed by
`get_trip_by_id` under owner 1 and under owner 2 (all other inputs equal,
on the same two-user store) yields the very same non-`None` record, while
the owners differ.  Hence the yielded record cannot have a seventh field
equal to the owning user identifier in both runs: the `Trip` object built
by `get_trip_by_id` carries only its `id` and the six descriptive fields,
never `user_id`. -/
theorem C5_record_independent_of_owner :
    tripUnderOwner 1 = tripUnderOwner 2 ∧ tripUnderOwner 1 ≠ none ∧
      (1 : Nat) ≠ 2 := by
  decide

/-- C5 amended: after `create_trip`, `get_trip_by_id` on the returned
identifier yields a record whose identifier is the returned identifier and
whose six descriptive fields equal the inputs; the owning user identifier
is recorded faithfully on the stored trip row, but is not carried on the
yielded record.  The hypothesis is the AUTOINCREMENT invariant: no stored
trip already uses the next identifier. -/
theorem C5_roundtrip_descriptive_fields (db : DB) (user_id : Nat)
    (city state country start_date end_date trip_type : String)
    (h : ∀ t ∈ db.trips, t.id ≠ db.nextTripId) :
    get_trip_by_id
        (create_trip db user_id city state country start_date end_date
          trip_type).2
        (create_trip db user_id city state country start_date end_date
          trip_type).1 =
      some ⟨some db.nextTripId, some city, some state, some country,
        some start_date, some end_date, some trip_type⟩ ∧
    ∃ row ∈ (create_trip db user_id city state country start_date end_date
        trip_type).2.trips,
      row.id = db.nextTripId ∧ row.user_id = user_id := by
  constructor
  · simp only [create_trip, get_trip_by_id]
    rw [find?_append_of_none _ _ _ (by
      rw [List.find?_eq_none]
      intro t ht
      simpa using h t ht)]
    simp [tripRowToObj]
  · exact ⟨⟨db.nextTripId, user_id, city, state, country, start_date, end_date,
      trip_type, db.clock⟩, by simp [create_trip], rfl, rfl⟩

/-- Witness for C5 (amended) on a concrete store: the Dallas trip comes
back with id 1 and its six descriptive fields, and the stored row carries
owner 1. -/
theorem C5_roundtrip_descriptive_fields_witness :
    get_trip_by_id
        (create_trip dbTwoUsers 1 "Dallas" "Texas" "USA" "2024-06-01"
          "2024-06-07" "business").2
        (create_trip dbTwoUsers 1 "Dallas" "Texas" "USA" "2024-06-01"
          "2024-06-07" "business").1 =
      some ⟨some 1, some "Dallas", some "Texas", some "USA", some "2024-06-01",
        some "2024-06-07", some "business"⟩ ∧
    ∃ row ∈ (create_trip dbTwoUsers 1 "Dallas" "Texas" "USA" "2024-06-01"
        "2024-06-07" "business").2.trips,
      row.id = 1 ∧ row.user_id = 1 :=
  C5_roundtrip_descriptive_fields dbTwoUsers 1 "Dallas" "Texas" "USA"
    "2024-06-01" "2024-06-07" "business" (by decide)

end Tourley
